import Mathlib

/-!
Verification of the OpenClawUE Python plugin module
(src/Python/openclawue/__init__.py and src/Python/openclawue/services.py).

The module is a thin layer of stub services: every operation checks a
host-availability flag, returns a synthetic success dictionary when the host
API is present, and converts every raised exception into a uniform error
dictionary. We embed the dictionaries as association lists over a small value
type, exceptions as an explicit error type threaded through `Except`, and the
one piece of per-service state (the OpenClaw connection flag) as an explicit
record passed in and out.
-/

namespace OpenClawUE

/-- Python values as they occur in this module's result dictionaries. -/
inductive Value where
  | str (s : String)
  | bool (b : Bool)
  | int (n : Int)
  | float (x : Float)
  | list (xs : List Value)
  | dict (kvs : List (String × Value))

/-- Result dictionaries, embedded as association lists. All dictionary
literals in the source have pairwise distinct keys, so first-match lookup
agrees with Python dict lookup. -/
abbrev Dict := List (String × Value)

/-- Lookup of a key in a result dictionary (`d[k]` / `d.get(k)`). -/
def lookup : Dict → String → Option Value
  | [], _ => none
  | (k, v) :: rest, key => if k = key then some v else lookup rest key

/-- Whether a key is present in a result dictionary (`k in d`). -/
def hasKey (d : Dict) (k : String) : Bool :=
  (lookup d k).isSome

/-- A raised Python exception: `typeName` is `type(e).__name__` and
`message` is `str(e)`. -/
structure PyErr where
  typeName : String
  message : String

namespace BaseService

/-- BaseService._check_unreal (services.py:23-27): raises RuntimeError when
the availability flag captured at construction is False, else returns True. -/
def _check_unreal (_unreal_available : Bool) : Except PyErr Bool :=
  if _unreal_available = false then
    Except.error ⟨"RuntimeError", "Unreal Engine Python API not available"⟩
  else
    Except.ok true

/-- BaseService._format_error (services.py:29-35): the uniform error
envelope built from a caught exception. -/
def _format_error (e : PyErr) : Dict :=
  [("success", Value.bool false),
   ("error", Value.str e.message),
   ("error_type", Value.str e.typeName)]

end BaseService

/-- A Python try/except-Exception block whose handler returns a dictionary:
a raised fault from the body is caught and replaced by the handler's result.
Every exception raised inside this module is an `Exception` subclass
(RuntimeError), so the handler catches every modelled fault. -/
def pyTry (body : Except PyErr Dict) (handler : PyErr → Dict) : Except PyErr Dict :=
  match body with
  | Except.ok d => Except.ok d
  | Except.error e => Except.ok (handler e)

/-- The method body shape shared verbatim by the thirteen stub methods of the
eight domain services (services.py): `try: self._check_unreal(); return result
except Exception as e: return self._format_error(e)`. Each method below
supplies its own `result` dictionary, copied from its source. -/
def stubCall (_unreal_available : Bool) (result : Dict) : Except PyErr Dict :=
  pyTry (do
    let _ ← BaseService._check_unreal _unreal_available
    pure result) BaseService._format_error

namespace BlueprintService

/-- BlueprintService.create_blueprint (services.py:41-64). -/
def create_blueprint (ua : Bool) (name parent_class path : String) : Except PyErr Dict :=
  stubCall ua
    [("success", Value.bool true),
     ("asset_path", Value.str (path ++ "/" ++ name)),
     ("message", Value.str ("Blueprint '" ++ name ++ "' created successfully"))]

/-- BlueprintService.add_variable (services.py:66-90). -/
def add_variable (ua : Bool) (blueprint_path name var_type default_value : String) : Except PyErr Dict :=
  stubCall ua
    [("success", Value.bool true),
     ("variable_name", Value.str name),
     ("variable_type", Value.str var_type),
     ("message", Value.str ("Variable '" ++ name ++ "' added to " ++ blueprint_path))]

/-- BlueprintService.compile_blueprint (services.py:92-110). -/
def compile_blueprint (ua : Bool) (blueprint_path : String) : Except PyErr Dict :=
  stubCall ua
    [("success", Value.bool true),
     ("message", Value.str ("Blueprint " ++ blueprint_path ++ " compiled successfully"))]

end BlueprintService

namespace MaterialService

/-- MaterialService.create_material (services.py:116-136). -/
def create_material (ua : Bool) (name path : String) : Except PyErr Dict :=
  stubCall ua
    [("success", Value.bool true),
     ("asset_path", Value.str (path ++ "/" ++ name)),
     ("message", Value.str ("Material '" ++ name ++ "' created successfully"))]

/-- MaterialService.create_material_instance (services.py:138-160). -/
def create_material_instance (ua : Bool) (parent_material name path : String) : Except PyErr Dict :=
  stubCall ua
    [("success", Value.bool true),
     ("asset_path", Value.str (path ++ "/" ++ name)),
     ("message", Value.str ("Material Instance '" ++ name ++ "' created successfully"))]

end MaterialService

namespace WidgetService

/-- WidgetService.create_widget_blueprint (services.py:166-188). -/
def create_widget_blueprint (ua : Bool) (name path parent_class : String) : Except PyErr Dict :=
  stubCall ua
    [("success", Value.bool true),
     ("asset_path", Value.str (path ++ "/" ++ name)),
     ("message", Value.str ("Widget Blueprint '" ++ name ++ "' created successfully"))]

/-- WidgetService.add_widget_component (services.py:190-214). -/
def add_widget_component (ua : Bool) (widget_path component_type name parent : String) : Except PyErr Dict :=
  stubCall ua
    [("success", Value.bool true),
     ("component_name", Value.str name),
     ("component_type", Value.str component_type),
     ("message", Value.str ("Component '" ++ name ++ "' added to " ++ widget_path))]

end WidgetService

namespace ActorService

/-- ActorService.spawn_actor (services.py:220-247). The keyword default
`rotation=None` and an explicit None argument are the same call in Python, so
the optional argument is an `Option`; the body replaces None by
[0.0, 0.0, 0.0] (the replacement happens inside the try block, after the
availability check, and cannot raise). -/
def spawn_actor (ua : Bool) (actor_class : String) (location : List Float)
    (rotation : Option (List Float)) : Except PyErr Dict :=
  stubCall ua
    (let rot := match rotation with
      | none => [0.0, 0.0, 0.0]
      | some r => r
     [("success", Value.bool true),
      ("actor_class", Value.str actor_class),
      ("location", Value.list (location.map Value.float)),
      ("rotation", Value.list (rot.map Value.float)),
      ("message", Value.str ("Actor of class '" ++ actor_class ++ "' spawned successfully"))])

/-- ActorService.get_all_actors (services.py:249-267). -/
def get_all_actors (ua : Bool) : Except PyErr Dict :=
  stubCall ua
    [("success", Value.bool true),
     ("actors", Value.list []),
     ("count", Value.int 0),
     ("message", Value.str "No actors in level (stub mode)")]

end ActorService

namespace AnimationService

/-- AnimationService.create_animation_sequence (services.py:273-295). -/
def create_animation_sequence (ua : Bool) (name path skeleton : String) : Except PyErr Dict :=
  stubCall ua
    [("success", Value.bool true),
     ("asset_path", Value.str (path ++ "/" ++ name)),
     ("message", Value.str ("Animation Sequence '" ++ name ++ "' created successfully"))]

end AnimationService

namespace NiagaraService

/-- NiagaraService.create_niagara_system (services.py:301-323). -/
def create_niagara_system (ua : Bool) (name path template : String) : Except PyErr Dict :=
  stubCall ua
    [("success", Value.bool true),
     ("asset_path", Value.str (path ++ "/" ++ name)),
     ("message", Value.str ("Niagara System '" ++ name ++ "' created successfully"))]

end NiagaraService

namespace InputService

/-- InputService.create_input_action (services.py:329-351). -/
def create_input_action (ua : Bool) (name path value_type : String) : Except PyErr Dict :=
  stubCall ua
    [("success", Value.bool true),
     ("asset_path", Value.str (path ++ "/" ++ name)),
     ("message", Value.str ("Input Action '" ++ name ++ "' created successfully"))]

end InputService

namespace AssetService

/-- AssetService.search_assets (services.py:357-380). -/
def search_assets (ua : Bool) (search_term asset_type : String) : Except PyErr Dict :=
  stubCall ua
    [("success", Value.bool true),
     ("assets", Value.list []),
     ("count", Value.int 0),
     ("message", Value.str "No assets found (stub mode)")]

end AssetService

/-- OpenClawService state (services.py:383-388): the availability flag set by
BaseService.__init__ and the connection flag set to False by __init__. -/
structure OpenClawService where
  _unreal_available : Bool
  _connected : Bool

namespace OpenClawService

/-- OpenClawService.__init__ (services.py:386-388). -/
def init (ua : Bool) : OpenClawService :=
  ⟨ua, false⟩

/-- OpenClawService.connect_to_openclaw (services.py:390-412): inside the try
block, unconditionally sets self._connected = True and returns the success
dictionary; nothing in the body can raise. -/
def connect_to_openclaw (self : OpenClawService) (url : String) :
    OpenClawService × Except PyErr Dict :=
  ({ self with _connected := true },
   pyTry (Except.ok
     [("success", Value.bool true),
      ("connected", Value.bool true),
      ("url", Value.str url),
      ("message", Value.str ("Connected to OpenClaw Gateway at " ++ url))])
     BaseService._format_error)

/-- OpenClawService.send_to_openclaw (services.py:414-438): returns the
not-connected error dictionary when self._connected is False, the echoing
stub response otherwise; the state is not modified. -/
def send_to_openclaw (self : OpenClawService) (command : Value) :
    OpenClawService × Except PyErr Dict :=
  (self,
   pyTry (Except.ok
     (if self._connected = false then
       [("success", Value.bool false),
        ("error", Value.str "Not connected to OpenClaw")]
      else
       [("success", Value.bool true),
        ("command", command),
        ("response", Value.dict
          [("status", Value.str "received"),
           ("message", Value.str "Command processed (stub)")])]))
     BaseService._format_error)

/-- OpenClawService.create_dashboard (services.py:440-454): returns a fixed
dictionary unconditionally; the state is not modified. -/
def create_dashboard (self : OpenClawService) :
    OpenClawService × Except PyErr Dict :=
  (self,
   pyTry (Except.ok
     [("success", Value.bool true),
      ("dashboard_url", Value.str "http://127.0.0.1:3000/openclawue"),
      ("message", Value.str "Dashboard created successfully (stub)")])
     BaseService._format_error)

end OpenClawService

/-- One call to an OpenClawService method, for reasoning about sequences of
operations on one instance. -/
inductive OCOp where
  | connect_to_openclaw (url : String)
  | send_to_openclaw (command : Value)
  | create_dashboard

/-- The state reached after one OpenClawService method call (the returned
dictionary is discarded). -/
def OCStep (s : OpenClawService) (op : OCOp) : OpenClawService :=
  match op with
  | OCOp.connect_to_openclaw url => (OpenClawService.connect_to_openclaw s url).1
  | OCOp.send_to_openclaw c => (OpenClawService.send_to_openclaw s c).1
  | OCOp.create_dashboard => (OpenClawService.create_dashboard s).1

/-- discover_module (__init__.py:98-119): with the host absent, a dictionary
holding only an error message; with the host present, a stub metadata
dictionary. Neither carries a success field. -/
def discover_module (ua : Bool) (module_name : String) : Dict :=
  if ua = false then
    [("error", Value.str "Unreal Engine Python API not available")]
  else
    [("module", Value.str module_name),
     ("classes", Value.list []),
     ("functions", Value.list []),
     ("constants", Value.list [])]

/-- discover_class (__init__.py:121-142): same shape as discover_module. -/
def discover_class (ua : Bool) (class_name : String) : Dict :=
  if ua = false then
    [("error", Value.str "Unreal Engine Python API not available")]
  else
    [("class", Value.str class_name),
     ("methods", Value.list []),
     ("properties", Value.list []),
     ("inheritance", Value.list [])]

/-- execute_python (__init__.py:144-176). The host-language primitive
`exec(code, exec_globals)` is modelled by an oracle `ex` mapping the code
string either to the text the code printed (discarded by the source: exec
returns None and nothing is captured) or to the exception it raised. The
wrapper returns the three fixed-shape dictionaries of the source. -/
def execute_python (ex : String → Except PyErr String) (ua : Bool) (code : String) : Dict :=
  if ua = false then
    [("stdout", Value.str ""),
     ("stderr", Value.str "Unreal Engine Python API not available"),
     ("success", Value.bool false)]
  else
    match ex code with
    | Except.ok _ =>
      [("stdout", Value.str "Execution completed"),
       ("stderr", Value.str ""),
       ("success", Value.bool true)]
    | Except.error e =>
      [("stdout", Value.str ""),
       ("stderr", Value.str e.message),
       ("success", Value.bool false)]

/-- Concrete instance of the exec oracle, fixing the behaviour CPython gives
the code strings used below: `1/0` raises ZeroDivisionError whose str() is
"division by zero", and the other sample lines run without raising. -/
def pyExecSample : String → Except PyErr String :=
  fun code =>
    if code = "1/0" then
      Except.error ⟨"ZeroDivisionError", "division by zero"⟩
    else if code = "print(42)" then
      Except.ok "42"
    else
      Except.ok ""

/-- The nine capability domains registered in __init__.py:56-87. -/
inductive Domain where
  | blueprint
  | material
  | widget
  | actor
  | animation
  | niagara
  | input
  | asset
  | openclaw
deriving DecidableEq

/-- The module-level name each domain's accessor is bound to
(__init__.py:79-87). -/
def accessorName : Domain → String
  | Domain.blueprint => "BlueprintService"
  | Domain.material => "MaterialService"
  | Domain.widget => "WidgetService"
  | Domain.actor => "ActorService"
  | Domain.animation => "AnimationService"
  | Domain.niagara => "NiagaraService"
  | Domain.input => "InputService"
  | Domain.asset => "AssetService"
  | Domain.openclaw => "OpenClawService"

/-- What a module-level name of openclawue can be bound to after import:
a service class object, a property object, or anything else. -/
inductive ModuleAttr where
  | serviceClass (d : Domain)
  | propertyObj (d : Domain)
  | other

/-- The registry slots _blueprint_service .. _openclaw_service
(__init__.py:56-64), all None after import, together with an allocation
counter so that object identity can be stated: two lookups return the
identical instance object exactly when they return the same allocation
number. -/
structure Registry where
  slots : Domain → Option Nat
  next : Nat

/-- The module namespace after __init__.py has run: lines 79-87 rebind each
of the nine service names, imported as classes on lines 25-35, to the
property object built around `lambda self: _get_service(...)`. -/
def moduleGlobals (name : String) : Option ModuleAttr :=
  match (([Domain.blueprint, Domain.material, Domain.widget, Domain.actor,
           Domain.animation, Domain.niagara, Domain.input, Domain.asset,
           Domain.openclaw] : List Domain).find? (fun d => accessorName d == name)) with
  | some d => some (ModuleAttr.propertyObj d)
  | none => none

/-- Attribute access on a Python module object: `openclawue.Name` returns the
entry stored in the module namespace unchanged. The descriptor protocol runs
only for attributes found on a type, never for entries of a module's dict, so
a property object stored at module level is returned as-is and its wrapped
lambda is not run; in particular no code touching the registry executes. -/
def module_getattr (st : Registry) (name : String) : Registry × Option ModuleAttr :=
  (st, moduleGlobals name)

/-- _get_service (__init__.py:66-76) as intended when handed an actual
service class: return the cached instance if the slot is non-None, else
construct a fresh instance, cache it and return it. (The property wiring of
lines 79-87 never reaches this function; see the C1 theorem.) -/
def _get_service (st : Registry) (d : Domain) : Registry × Nat :=
  match st.slots d with
  | some i => (st, i)
  | none =>
    ({ slots := fun d' => if d' = d then some st.next else st.slots d',
       next := st.next + 1 }, st.next)

/-- The envelope every domain-service method returns when the availability
flag is False: _format_error applied to the RuntimeError raised by
_check_unreal. -/
def unavailableEnvelope : Dict :=
  BaseService._format_error ⟨"RuntimeError", "Unreal Engine Python API not available"⟩

/-- The result-envelope invariant of the spec, for one dictionary and the
operation's declared output fields: a boolean success entry is present;
success False forces an error entry; success True forces every declared
output field. -/
def envelopeOk (d : Dict) (declared : List String) : Prop :=
  ∃ b, lookup d "success" = some (Value.bool b) ∧
    (b = false → hasKey d "error" = true) ∧
    (b = true → declared.all (fun k => hasKey d k) = true)

theorem stubCall_false (d : Dict) : stubCall false d = Except.ok unavailableEnvelope :=
  rfl

theorem stubCall_true (d : Dict) : stubCall true d = Except.ok d :=
  rfl

theorem stubCall_ok (ua : Bool) (d : Dict) : ∃ r, stubCall ua d = Except.ok r := by
  cases ua
  · exact ⟨unavailableEnvelope, rfl⟩
  · exact ⟨d, rfl⟩

theorem stubCall_envelopeOk (ua : Bool) (d : Dict) (declared : List String)
    (hs : lookup d "success" = some (Value.bool true))
    (hd : declared.all (fun k => hasKey d k) = true) :
    ∃ r, stubCall ua d = Except.ok r ∧ envelopeOk r declared := by
  cases ua
  · refine ⟨unavailableEnvelope, rfl, false, rfl, fun _ => rfl, fun h => ?_⟩
    exact Bool.noConfusion h
  · refine ⟨d, rfl, true, hs, fun h => ?_, fun _ => hd⟩
    exact Bool.noConfusion h

/-- C3: every operation of the eight domain services, called with the host
availability flag False and arbitrary arguments, returns the uniform failure
envelope, whose success entry is False and whose error entry is a non-empty
string. -/
theorem C3_unavailable_all_operations_fail :
    (∀ n pc p, BlueprintService.create_blueprint false n pc p = Except.ok unavailableEnvelope) ∧
    (∀ bp n vt dv, BlueprintService.add_variable false bp n vt dv = Except.ok unavailableEnvelope) ∧
    (∀ bp, BlueprintService.compile_blueprint false bp = Except.ok unavailableEnvelope) ∧
    (∀ n p, MaterialService.create_material false n p = Except.ok unavailableEnvelope) ∧
    (∀ pm n p, MaterialService.create_material_instance false pm n p = Except.ok unavailableEnvelope) ∧
    (∀ n p pc, WidgetService.create_widget_blueprint false n p pc = Except.ok unavailableEnvelope) ∧
    (∀ wp ct n pa, WidgetService.add_widget_component false wp ct n pa = Except.ok unavailableEnvelope) ∧
    (∀ ac loc rot, ActorService.spawn_actor false ac loc rot = Except.ok unavailableEnvelope) ∧
    (ActorService.get_all_actors false = Except.ok unavailableEnvelope) ∧
    (∀ n p sk, AnimationService.create_animation_sequence false n p sk = Except.ok unavailableEnvelope) ∧
    (∀ n p t, NiagaraService.create_niagara_system false n p t = Except.ok unavailableEnvelope) ∧
    (∀ n p vt, InputService.create_input_action false n p vt = Except.ok unavailableEnvelope) ∧
    (∀ st aty, AssetService.search_assets false st aty = Except.ok unavailableEnvelope) ∧
    lookup unavailableEnvelope "success" = some (Value.bool false) ∧
    (∃ m, lookup unavailableEnvelope "error" = some (Value.str m) ∧ m ≠ "") :=
  ⟨fun _ _ _ => rfl, fun _ _ _ _ => rfl, fun _ => rfl, fun _ _ => rfl,
   fun _ _ _ => rfl, fun _ _ _ => rfl, fun _ _ _ _ => rfl, fun _ _ _ => rfl,
   rfl, fun _ _ _ => rfl, fun _ _ _ => rfl, fun _ _ _ => rfl, fun _ _ => rfl,
   rfl, ⟨"Unreal Engine Python API not available", rfl, by decide⟩⟩

/-- C7: with the host availability flag True, create_blueprint returns a
success envelope whose asset_path entry is exactly the path, a slash, then
the name. -/
theorem C7_create_blueprint_asset_path (name parent_class path : String) :
    ∃ d, BlueprintService.create_blueprint true name parent_class path = Except.ok d ∧
      lookup d "asset_path" = some (Value.str (path ++ "/" ++ name)) :=
  ⟨_, rfl, rfl⟩

/-- C9: with the host availability flag True and the rotation argument
omitted (None), spawn_actor returns a success envelope whose rotation entry
is [0.0, 0.0, 0.0] and whose location entry is the location argument. -/
theorem C9_spawn_actor_default_rotation (actor_class : String) (location : List Float) :
    ∃ d, ActorService.spawn_actor true actor_class location none = Except.ok d ∧
      lookup d "rotation" = some (Value.list [Value.float 0.0, Value.float 0.0, Value.float 0.0]) ∧
      lookup d "location" = some (Value.list (location.map Value.float)) :=
  ⟨_, rfl, rfl, rfl⟩

/-- C8: no service method propagates a raised fault: for every method of
every service, at every argument, state and availability flag, the
try/except-wrapped body yields a returned dictionary, never an uncaught
exception. -/
theorem C8_no_service_method_raises :
    (∀ ua n pc p, ∃ d, BlueprintService.create_blueprint ua n pc p = Except.ok d) ∧
    (∀ ua bp n vt dv, ∃ d, BlueprintService.add_variable ua bp n vt dv = Except.ok d) ∧
    (∀ ua bp, ∃ d, BlueprintService.compile_blueprint ua bp = Except.ok d) ∧
    (∀ ua n p, ∃ d, MaterialService.create_material ua n p = Except.ok d) ∧
    (∀ ua pm n p, ∃ d, MaterialService.create_material_instance ua pm n p = Except.ok d) ∧
    (∀ ua n p pc, ∃ d, WidgetService.create_widget_blueprint ua n p pc = Except.ok d) ∧
    (∀ ua wp ct n pa, ∃ d, WidgetService.add_widget_component ua wp ct n pa = Except.ok d) ∧
    (∀ ua ac loc rot, ∃ d, ActorService.spawn_actor ua ac loc rot = Except.ok d) ∧
    (∀ ua, ∃ d, ActorService.get_all_actors ua = Except.ok d) ∧
    (∀ ua n p sk, ∃ d, AnimationService.create_animation_sequence ua n p sk = Except.ok d) ∧
    (∀ ua n p t, ∃ d, NiagaraService.create_niagara_system ua n p t = Except.ok d) ∧
    (∀ ua n p vt, ∃ d, InputService.create_input_action ua n p vt = Except.ok d) ∧
    (∀ ua st aty, ∃ d, AssetService.search_assets ua st aty = Except.ok d) ∧
    (∀ s url, ∃ d, (OpenClawService.connect_to_openclaw s url).2 = Except.ok d) ∧
    (∀ s c, ∃ d, (OpenClawService.send_to_openclaw s c).2 = Except.ok d) ∧
    (∀ s, ∃ d, (OpenClawService.create_dashboard s).2 = Except.ok d) :=
  ⟨fun ua _ _ _ => stubCall_ok ua _, fun ua _ _ _ _ => stubCall_ok ua _,
   fun ua _ => stubCall_ok ua _, fun ua _ _ => stubCall_ok ua _,
   fun ua _ _ _ => stubCall_ok ua _, fun ua _ _ _ => stubCall_ok ua _,
   fun ua _ _ _ _ => stubCall_ok ua _, fun ua _ _ _ => stubCall_ok ua _,
   fun ua => stubCall_ok ua _, fun ua _ _ _ => stubCall_ok ua _,
   fun ua _ _ _ => stubCall_ok ua _, fun ua _ _ _ => stubCall_ok ua _,
   fun ua _ _ => stubCall_ok ua _, fun _ _ => ⟨_, rfl⟩,
   fun _ _ => ⟨_, rfl⟩, fun _ => ⟨_, rfl⟩⟩

/-- C5: send_to_openclaw on a disconnected instance returns the not-connected
failure envelope for every command; connect_to_openclaw sets the connected
flag True and returns success for every url; and after a connect, a
send_to_openclaw returns success with the command echoed back. -/
theorem C5_openclaw_connect_then_send :
    (∀ (s : OpenClawService) (c : Value), s._connected = false →
      (OpenClawService.send_to_openclaw s c).2 =
        Except.ok [("success", Value.bool false),
                   ("error", Value.str "Not connected to OpenClaw")]) ∧
    (∀ (s : OpenClawService) (url : String),
      ((OpenClawService.connect_to_openclaw s url).1)._connected = true ∧
      ∃ d, (OpenClawService.connect_to_openclaw s url).2 = Except.ok d ∧
        lookup d "success" = some (Value.bool true)) ∧
    (∀ (s : OpenClawService) (url : String) (c : Value),
      ∃ d, (OpenClawService.send_to_openclaw
              (OpenClawService.connect_to_openclaw s url).1 c).2 = Except.ok d ∧
        lookup d "success" = some (Value.bool true) ∧
        lookup d "command" = some c) := by
  refine ⟨fun s c h => ?_,
    fun s url => ⟨rfl, ⟨_, rfl, rfl⟩⟩,
    fun s url c =>
      ⟨[("success", Value.bool true), ("command", c),
        ("response", Value.dict
          [("status", Value.str "received"),
           ("message", Value.str "Command processed (stub)")])], rfl, rfl, rfl⟩⟩
  simp [OpenClawService.send_to_openclaw, h, pyTry]

theorem C5_witness :
    (OpenClawService.init false)._connected = false ∧
    (OpenClawService.send_to_openclaw (OpenClawService.init false) (Value.str "ping")).2 =
      Except.ok [("success", Value.bool false),
                 ("error", Value.str "Not connected to OpenClaw")] :=
  ⟨rfl, C5_openclaw_connect_then_send.1 (OpenClawService.init false) (Value.str "ping") rfl⟩

/-- C6: the OpenClaw connection flag is a two-state machine with the single
transition Disconnected to Connected on connect_to_openclaw: every step
either leaves the flag unchanged or is a connect on a disconnected instance
that sets it True, and no sequence of connect_to_openclaw, send_to_openclaw
and create_dashboard calls ever takes a connected instance back to
disconnected. -/
theorem C6_connected_flag_monotone :
    (∀ (s : OpenClawService) (op : OCOp),
      s._connected = true → (OCStep s op)._connected = true) ∧
    (∀ (s : OpenClawService) (op : OCOp),
      (OCStep s op)._connected = s._connected ∨
      ((∃ url, op = OCOp.connect_to_openclaw url) ∧ s._connected = false ∧
        (OCStep s op)._connected = true)) ∧
    (∀ (s : OpenClawService) (ops : List OCOp),
      s._connected = true → (ops.foldl OCStep s)._connected = true) := by
  have hstep : ∀ (s : OpenClawService) (op : OCOp),
      s._connected = true → (OCStep s op)._connected = true := by
    intro s op h
    cases op with
    | connect_to_openclaw url => rfl
    | send_to_openclaw c => exact h
    | create_dashboard => exact h
  refine ⟨hstep, fun s op => ?_, fun s ops => ?_⟩
  · cases op with
    | connect_to_openclaw url =>
      cases hc : s._connected with
      | false => exact Or.inr ⟨⟨url, rfl⟩, rfl, rfl⟩
      | true => exact Or.inl (by simp [OCStep, OpenClawService.connect_to_openclaw, hc])
    | send_to_openclaw c => exact Or.inl rfl
    | create_dashboard => exact Or.inl rfl
  · induction ops generalizing s with
    | nil => exact fun h => h
    | cons op rest ih => exact fun h => ih (OCStep s op) (hstep s op h)

theorem C6_witness :
    (([OCOp.send_to_openclaw (Value.str "cmd"), OCOp.create_dashboard,
       OCOp.connect_to_openclaw "ws://other"].foldl OCStep
       (OCStep (OpenClawService.init true)
         (OCOp.connect_to_openclaw "ws://127.0.0.1:18789"))))._connected = true :=
  C6_connected_flag_monotone.2.2 _ _ rfl

/-- C10: with the host available, execute_python on any code string whose
execution raises nothing returns the fixed envelope with stdout "Execution
completed" and empty stderr; the text the code actually printed (the oracle's
output) never appears in the envelope. -/
theorem C10_execute_python_fixed_stdout
    (ex : String → Except PyErr String) (code out : String)
    (h : ex code = Except.ok out) :
    execute_python ex true code =
      [("stdout", Value.str "Execution completed"),
       ("stderr", Value.str ""),
       ("success", Value.bool true)] := by
  simp only [execute_python, h]
  rfl

theorem C10_witness :
    pyExecSample "print(42)" = Except.ok "42" ∧
    execute_python pyExecSample true "print(42)" =
      [("stdout", Value.str "Execution completed"),
       ("stderr", Value.str ""),
       ("success", Value.bool true)] :=
  ⟨rfl, C10_execute_python_fixed_stdout pyExecSample "print(42)" "42" rfl⟩

/-- C2 (counterexample): discover_module returns a mapping with no success
entry at all, and a failing execute_python call returns a mapping with no
error entry — its message sits under stderr — so the claimed envelope
invariant fails for the module-level functions. -/
theorem C2_counterexample :
    lookup (discover_module false "math") "success" = none ∧
    lookup (execute_python pyExecSample true "1/0") "error" = none ∧
    lookup (execute_python pyExecSample true "1/0") "success" = some (Value.bool false) :=
  ⟨rfl, rfl, rfl⟩

/-- C2 (amended): every service method returns a dictionary satisfying the
envelope invariant: a boolean success entry, an error entry whenever success
is False, and the operation's declared output fields whenever success is
True. The module-level execute_python always carries a boolean success entry
but reports failures under stderr, and discover_module / discover_class
return mappings with no success entry at all, in both modes. -/
theorem C2_envelope_invariant :
    (∀ ua n pc p, ∃ d, BlueprintService.create_blueprint ua n pc p = Except.ok d ∧
      envelopeOk d ["asset_path", "message"]) ∧
    (∀ ua bp n vt dv, ∃ d, BlueprintService.add_variable ua bp n vt dv = Except.ok d ∧
      envelopeOk d ["variable_name", "variable_type", "message"]) ∧
    (∀ ua bp, ∃ d, BlueprintService.compile_blueprint ua bp = Except.ok d ∧
      envelopeOk d ["message"]) ∧
    (∀ ua n p, ∃ d, MaterialService.create_material ua n p = Except.ok d ∧
      envelopeOk d ["asset_path", "message"]) ∧
    (∀ ua pm n p, ∃ d, MaterialService.create_material_instance ua pm n p = Except.ok d ∧
      envelopeOk d ["asset_path", "message"]) ∧
    (∀ ua n p pc, ∃ d, WidgetService.create_widget_blueprint ua n p pc = Except.ok d ∧
      envelopeOk d ["asset_path", "message"]) ∧
    (∀ ua wp ct n pa, ∃ d, WidgetService.add_widget_component ua wp ct n pa = Except.ok d ∧
      envelopeOk d ["component_name", "component_type", "message"]) ∧
    (∀ ua ac loc rot, ∃ d, ActorService.spawn_actor ua ac loc rot = Except.ok d ∧
      envelopeOk d ["actor_class", "location", "rotation", "message"]) ∧
    (∀ ua, ∃ d, ActorService.get_all_actors ua = Except.ok d ∧
      envelopeOk d ["actors", "count", "message"]) ∧
    (∀ ua n p sk, ∃ d, AnimationService.create_animation_sequence ua n p sk = Except.ok d ∧
      envelopeOk d ["asset_path", "message"]) ∧
    (∀ ua n p t, ∃ d, NiagaraService.create_niagara_system ua n p t = Except.ok d ∧
      envelopeOk d ["asset_path", "message"]) ∧
    (∀ ua n p vt, ∃ d, InputService.create_input_action ua n p vt = Except.ok d ∧
      envelopeOk d ["asset_path", "message"]) ∧
    (∀ ua st aty, ∃ d, AssetService.search_assets ua st aty = Except.ok d ∧
      envelopeOk d ["assets", "count", "message"]) ∧
    (∀ s url, ∃ d, (OpenClawService.connect_to_openclaw s url).2 = Except.ok d ∧
      envelopeOk d ["connected", "url", "message"]) ∧
    (∀ s c, ∃ d, (OpenClawService.send_to_openclaw s c).2 = Except.ok d ∧
      envelopeOk d ["command", "response"]) ∧
    (∀ s, ∃ d, (OpenClawService.create_dashboard s).2 = Except.ok d ∧
      envelopeOk d ["dashboard_url", "message"]) ∧
    (∀ ex ua code, ∃ b, lookup (execute_python ex ua code) "success" = some (Value.bool b) ∧
      (b = false → hasKey (execute_python ex ua code) "stderr" = true)) ∧
    (∀ ua name, lookup (discover_module ua name) "success" = none) ∧
    (∀ ua name, lookup (discover_class ua name) "success" = none) := by
  have hsend : ∀ (s : OpenClawService) (c : Value),
      ∃ d, (OpenClawService.send_to_openclaw s c).2 = Except.ok d ∧
        envelopeOk d ["command", "response"] := by
    intro s c
    cases hc : s._connected with
    | false =>
      refine ⟨[("success", Value.bool false),
               ("error", Value.str "Not connected to OpenClaw")], ?_,
        false, rfl, fun _ => rfl, fun h => Bool.noConfusion h⟩
      simp [OpenClawService.send_to_openclaw, pyTry, hc]
    | true =>
      refine ⟨[("success", Value.bool true), ("command", c),
               ("response", Value.dict
                 [("status", Value.str "received"),
                  ("message", Value.str "Command processed (stub)")])], ?_,
        true, rfl, fun h => Bool.noConfusion h, fun _ => rfl⟩
      simp [OpenClawService.send_to_openclaw, pyTry, hc]
  have hexec : ∀ (ex : String → Except PyErr String) (ua : Bool) (code : String),
      ∃ b, lookup (execute_python ex ua code) "success" = some (Value.bool b) ∧
        (b = false → hasKey (execute_python ex ua code) "stderr" = true) := by
    intro ex ua code
    cases ua with
    | false => exact ⟨false, rfl, fun _ => rfl⟩
    | true =>
      cases hx : ex code with
      | ok out =>
        exact ⟨true, by simp [execute_python, hx, lookup], fun h => Bool.noConfusion h⟩
      | error e =>
        exact ⟨false, by simp [execute_python, hx, lookup],
          fun _ => by simp [execute_python, hx, lookup, hasKey]⟩
  refine ⟨fun ua _ _ _ => stubCall_envelopeOk ua _ _ rfl rfl,
    fun ua _ _ _ _ => stubCall_envelopeOk ua _ _ rfl rfl,
    fun ua _ => stubCall_envelopeOk ua _ _ rfl rfl,
    fun ua _ _ => stubCall_envelopeOk ua _ _ rfl rfl,
    fun ua _ _ _ => stubCall_envelopeOk ua _ _ rfl rfl,
    fun ua _ _ _ => stubCall_envelopeOk ua _ _ rfl rfl,
    fun ua _ _ _ _ => stubCall_envelopeOk ua _ _ rfl rfl,
    fun ua _ _ rot => stubCall_envelopeOk ua _ _ ?_ ?_,
    fun ua => stubCall_envelopeOk ua _ _ rfl rfl,
    fun ua _ _ _ => stubCall_envelopeOk ua _ _ rfl rfl,
    fun ua _ _ _ => stubCall_envelopeOk ua _ _ rfl rfl,
    fun ua _ _ _ => stubCall_envelopeOk ua _ _ rfl rfl,
    fun ua _ _ => stubCall_envelopeOk ua _ _ rfl rfl,
    fun s url => ⟨_, rfl, true, rfl, fun h => Bool.noConfusion h, fun _ => rfl⟩,
    hsend,
    fun s => ⟨_, rfl, true, rfl, fun h => Bool.noConfusion h, fun _ => rfl⟩,
    hexec,
    fun ua name => by cases ua <;> rfl,
    fun ua name => by cases ua <;> rfl⟩
  · cases rot <;> rfl
  · cases rot <;> rfl

theorem C2_witness :
    ∃ d, BlueprintService.create_blueprint true "BP_Test" "Actor" "/Game/Blueprints" = Except.ok d ∧
      envelopeOk d ["asset_path", "message"] :=
  C2_envelope_invariant.1 true "BP_Test" "Actor" "/Game/Blueprints"

/-- C4 (counterexample): with the host available, execute_python on "1/0"
(the exec primitive fixed by the concrete oracle) returns success False with
the division-by-zero message in the stderr entry and no error entry, so the
message is not captured under an error field as the claim states. -/
theorem C4_counterexample :
    lookup (execute_python pyExecSample true "1/0") "success" = some (Value.bool false) ∧
    lookup (execute_python pyExecSample true "1/0") "stderr" = some (Value.str "division by zero") ∧
    lookup (execute_python pyExecSample true "1/0") "error" = none :=
  ⟨rfl, rfl, rfl⟩

/-- C4 (amended): with the host available, executing "1/0" returns success
False with the exception message captured in the stderr entry; with the host
absent, execute_python returns the fixed not-available message in the stderr
entry regardless of the code string. -/
theorem C4_execute_python_failure_paths :
    (∀ (ex : String → Except PyErr String) (e : PyErr), ex "1/0" = Except.error e →
      execute_python ex true "1/0" =
        [("stdout", Value.str ""),
         ("stderr", Value.str e.message),
         ("success", Value.bool false)]) ∧
    (∀ (ex : String → Except PyErr String) (code : String),
      execute_python ex false code =
        [("stdout", Value.str ""),
         ("stderr", Value.str "Unreal Engine Python API not available"),
         ("success", Value.bool false)]) := by
  constructor
  · intro ex e h
    simp [execute_python, h]
  · intro ex code
    rfl

theorem C4_witness :
    pyExecSample "1/0" = Except.error ⟨"ZeroDivisionError", "division by zero"⟩ ∧
    execute_python pyExecSample true "1/0" =
      [("stdout", Value.str ""),
       ("stderr", Value.str "division by zero"),
       ("success", Value.bool false)] :=
  ⟨rfl, C4_execute_python_failure_paths.1 pyExecSample ⟨"ZeroDivisionError", "division by zero"⟩ rfl⟩

/-- C1: a lookup through any of the nine module-level service accessors
returns the inert property object stored in the module namespace and leaves
every registry slot untouched — no lookup ever constructs or caches a
service instance. Lines 79-87 rebind the nine imported class names to
property objects; attribute access on a module does not run the descriptor
protocol, so the wrapped lambda never executes and _get_service is never
reached through an accessor. -/
theorem C1_module_accessor_never_constructs (st : Registry) (d : Domain) :
    module_getattr st (accessorName d) = (st, some (ModuleAttr.propertyObj d)) ∧
    ((module_getattr st (accessorName d)).1).slots = st.slots := by
  cases d <;> exact ⟨rfl, rfl⟩

/-- _get_service (__init__.py:66-76) called directly with a real service
slot is identity-stable: a second lookup returns the cached allocation of
the first, which is the behaviour the property wiring was meant to expose. -/
theorem get_service_identity_stable (st : Registry) (d : Domain) :
    _get_service (_get_service st d).1 d = ((_get_service st d).1, (_get_service st d).2) := by
  cases h : st.slots d with
  | some i => simp [_get_service, h]
  | none => simp [_get_service, h]

end OpenClawUE
